import Mathlib

/-!
Verification of the ViralClip video-manifest model, Director edit engine and
text-animation engine, shallowly embedded from the TypeScript sources
(`src/lib/types.ts`, the Director in `src/unnamed/part_004`, the Remotion
components `remotion/components/DynamicText.tsx`, `remotion/MyComposition.tsx`
(`src/unnamed/part_007`), the legacy `DynamicText` variant `src/unnamed/part_008`,
and the TwelveLabs helpers in `src/unnamed/part_006`).

Frame counts and versions are natural numbers; JS float arithmetic in the
text-animation engine is modelled exactly over `ℚ`; wall-clock values
(`new Date().toISOString()`, `Date.now()`) are passed in explicitly; the
Gemini round trip is an explicit parameter describing its outcome.
-/

namespace ViralClip

/-- One step of JS `String.prototype.includes`: does `l` start with `pattern`? -/
def startsWithChars : List Char → List Char → Bool
  | _, [] => true
  | [], _ :: _ => false
  | c :: cs, p :: ps => c = p && startsWithChars cs ps

/-- Substring search over character lists (JS `String.prototype.includes`). -/
def containsChars : List Char → List Char → Bool
  | [], pattern => pattern.isEmpty
  | c :: cs, pattern => startsWithChars (c :: cs) pattern || containsChars cs pattern

/-- JS `s.includes(pattern)`. -/
def jsIncludes (s pattern : String) : Bool :=
  containsChars s.toList pattern.toList

/-- JS `s.toLowerCase()`, for the ASCII command text the Director inspects
(character-wise lowering, structurally recursive). -/
def jsToLower (s : String) : String :=
  String.mk (s.toList.map Char.toLower)

/-- JS `s || d` for strings: the empty string is falsy. -/
def jsOrString (s : Option String) (d : String) : String :=
  match s with
  | some v => if v = "" then d else v
  | none => d

/-- JS truthiness of an optional string field (`undefined` and `""` are falsy). -/
def jsTruthy (s : Option String) : Bool :=
  match s with
  | some v => v ≠ ""
  | none => false

/-- `(manifest.version || 1) + 1` — the version bump every mutating Director
operation performs (version `0` is falsy in JS, hence the `|| 1`). -/
def bumpVersion (v : ℕ) : ℕ :=
  (if v = 0 then 1 else v) + 1

/-! ## The data model (`src/lib/types.ts`) -/

/-- `TransitionTypeSchema = z.enum(["glitch", "fade", "slide", "zoom"])`. -/
inductive TransitionType
  | glitch | fade | slide | zoom
deriving DecidableEq, Repr

/-- `CaptionStyleSchema = z.enum(["impact", "minimal", "glitch", "typewriter"])`. -/
inductive CaptionStyle
  | impact | minimal | glitch | typewriter
deriving DecidableEq, Repr

/-- Caption `position`: `z.enum(["top", "center", "bottom"])`. -/
inductive CaptionPosition
  | top | center | bottom
deriving DecidableEq, Repr

/-- Clip `type`: `z.enum(["video", "image"])`. -/
inductive ClipType
  | video | image
deriving DecidableEq, Repr

/-- `CaptionSchema`, together with the optional per-caption style overrides the
Director writes onto captions (`color`, `fontSize`, `fontWeight`, `fontFamily`). -/
structure Caption where
  startFrame : ℕ
  endFrame : ℕ
  text : String
  style : CaptionStyle
  position : CaptionPosition := .center
  color : Option String := none
  fontSize : Option String := none
  fontWeight : Option ℕ := none
  fontFamily : Option String := none
deriving DecidableEq, Repr

/-- `ClipSchema`. -/
structure Clip where
  id : Option String := none
  startFrame : ℕ
  duration : ℕ
  type : ClipType := .video
  url : String
  sourceStartTime : ℚ := 0
  sourceEndTime : Option ℚ := none
  label : Option String := none
  transition : Option TransitionType := none
deriving DecidableEq, Repr

/-- `ThemeSchema`. -/
structure Theme where
  id : String
  name : String
  primaryColor : String
  secondaryColor : String
  accentColor : String
  backgroundColor : String
  fontFamily : String
  transition : TransitionType
  musicGenre : String
  clipDuration : ℕ
  textAnimation : CaptionStyle
  kenBurnsEnabled : Bool
  kenBurnsScale : ℚ
deriving DecidableEq, Repr

/-- `ProductSchema`. -/
structure Product where
  title : String
  price : String
  image : String
  description : Option String := none
  url : Option String := none
  videoUrl : Option String := none
deriving DecidableEq, Repr

/-- `VideoSegmentSchema`. -/
structure VideoSegment where
  label : String
  startTime : ℚ
  endTime : ℚ
  confidence : Option ℚ := none
  thumbnailUrl : Option String := none
deriving DecidableEq, Repr

/-- `VideoIndexSchema`. -/
structure VideoIndex where
  videoId : String
  videoUrl : String
  duration : ℚ
  segments : List VideoSegment
  indexed : Bool := false
deriving DecidableEq, Repr

/-- `VideoManifestSchema` — the living manifest. Timestamps are opaque strings. -/
structure VideoManifest where
  id : Option String := none
  version : ℕ := 1
  script : String
  captions : List Caption
  clips : List Clip
  product : Product
  audioUrl : Option String := none
  musicUrl : Option String := none
  musicVolume : ℚ := 0.3
  voiceVolume : ℚ := 1.0
  theme : Option Theme := none
  videoIndex : Option VideoIndex := none
  fps : ℕ := 30
  durationInFrames : ℕ
  width : ℕ := 1080
  height : ℕ := 1920
  createdAt : Option String := none
  updatedAt : Option String := none
deriving DecidableEq, Repr

/-! ## Theme registry (`THEME_PRESETS` in `src/lib/types.ts`) -/

/-- `THEME_PRESETS.cyber`. -/
def cyberTheme : Theme :=
  { id := "cyber", name := "Cyberpunk"
    primaryColor := "#00ff88", secondaryColor := "#ff0066"
    accentColor := "#00ffff", backgroundColor := "#0a0a0f"
    fontFamily := "Oswald", transition := .glitch, musicGenre := "techno"
    clipDuration := 45, textAnimation := .glitch
    kenBurnsEnabled := false, kenBurnsScale := 1.0 }

/-- `THEME_PRESETS.luxe`. -/
def luxeTheme : Theme :=
  { id := "luxe", name := "Luxury"
    primaryColor := "#d4af37", secondaryColor := "#1a1a1a"
    accentColor := "#ffffff", backgroundColor := "#0d0d0d"
    fontFamily := "Playfair Display", transition := .fade, musicGenre := "classical"
    clipDuration := 90, textAnimation := .minimal
    kenBurnsEnabled := true, kenBurnsScale := 1.15 }

/-- `THEME_PRESETS.minimal`. -/
def minimalTheme : Theme :=
  { id := "minimal", name := "Minimal"
    primaryColor := "#ffffff", secondaryColor := "#888888"
    accentColor := "#000000", backgroundColor := "#f5f5f5"
    fontFamily := "Inter", transition := .slide, musicGenre := "lofi"
    clipDuration := 60, textAnimation := .typewriter
    kenBurnsEnabled := true, kenBurnsScale := 1.08 }

/-- `THEME_PRESETS[themeId]` as a runtime lookup: theme ids reach the Director
from free-form LLM output, so an unknown id yields `undefined` (here `none`). -/
def lookupTheme (themeId : String) : Option Theme :=
  if themeId = "cyber" then some cyberTheme
  else if themeId = "luxe" then some luxeTheme
  else if themeId = "minimal" then some minimalTheme
  else none

/-! ## Manifest transformation operations (Director, `src/unnamed/part_004`) -/

/-- `applyTheme(manifest, themeId)` (director lines 142-170): unknown theme id
is a no-op; otherwise set the theme, rewrite every clip transition and every
caption style from the theme, bump the version and refresh `updatedAt`. -/
def applyTheme (manifest : VideoManifest) (themeId : String) (now : String) : VideoManifest :=
  match lookupTheme themeId with
  | none => manifest
  | some theme =>
    let updatedClips := manifest.clips.map fun clip =>
      { clip with transition := some theme.transition }
    let updatedCaptions := manifest.captions.map fun caption =>
      { caption with style := theme.textAnimation }
    { manifest with
      theme := some theme
      clips := updatedClips
      captions := updatedCaptions
      version := bumpVersion manifest.version
      updatedAt := some now }

/-- `adjustTiming(manifest, clipDuration)` (director lines 173-197): uniform
re-tiling of the clip track; no-op with zero clips. -/
def adjustTiming (manifest : VideoManifest) (clipDuration : ℕ) (now : String) : VideoManifest :=
  let numClips := manifest.clips.length
  if numClips = 0 then manifest
  else
    let totalFrames := manifest.durationInFrames
    let actualClipDuration := min clipDuration (totalFrames / numClips)
    let updatedClips := manifest.clips.mapIdx fun index clip =>
      { clip with startFrame := index * actualClipDuration, duration := actualClipDuration }
    { manifest with
      clips := updatedClips
      version := bumpVersion manifest.version
      updatedAt := some now }

/-- `updateCaption(manifest, captionIndex, newText)` (director lines 200-227):
out-of-range index (negative or past the end) is a no-op; otherwise replace the
caption's `text`, regenerate `script` as the newline-join of all caption texts,
bump the version. The JS copy-and-assign of one array slot is modelled as an
index-aware map. -/
def updateCaption (manifest : VideoManifest) (captionIndex : ℤ) (newText : String)
    (now : String) : VideoManifest :=
  if captionIndex < 0 ∨ (manifest.captions.length : ℤ) ≤ captionIndex then manifest
  else
    let updatedCaptions := manifest.captions.mapIdx fun j caption =>
      if j = captionIndex.toNat then { caption with text := newText } else caption
    let script := String.intercalate "\n" (updatedCaptions.map Caption.text)
    { manifest with
      captions := updatedCaptions
      script := script
      version := bumpVersion manifest.version
      updatedAt := some now }

/-- `createMockVideoIndex(videoUrl, duration)` (`src/unnamed/part_006` lines
288-330). The wall clock read `Date.now()` used for the mock video id is an
explicit argument. -/
def createMockVideoIndex (videoUrl : String) (duration : ℚ) (nowMs : ℕ) : VideoIndex :=
  { videoId := "mock_" ++ toString nowMs
    videoUrl := videoUrl
    duration := duration
    segments :=
      [ { label := "Product Close-up", startTime := 0, endTime := 5, confidence := some 0.95 }
      , { label := "Unboxing", startTime := 5, endTime := 12, confidence := some 0.88 }
      , { label := "Human Interaction", startTime := 12, endTime := 20, confidence := some 0.92 }
      , { label := "Wide Shot", startTime := 20, endTime := 25, confidence := some 0.85 }
      , { label := "Product in Use", startTime := 25, endTime := 30, confidence := some 0.9 } ]
    indexed := true }

/-- Result triple of `searchVideoSegment`. -/
structure SearchResult where
  manifest : VideoManifest
  found : Bool
  segment : Option (ℚ × ℚ) := none
deriving DecidableEq, Repr

/-- `searchVideoSegment(manifest, query)` (director lines 230-273). The
TwelveLabs round trip is collapsed into `tlSearch`: `some seg` when the service
is configured and `smartSearch` resolved a segment, `none` when it is not
configured, returned `null`, or threw (all of which fall through to the mock
substring search). `manifest.videoIndex = createMockVideoIndex(...)` in the
source assigns through the passed-in reference; the resulting manifest value is
returned here. The mock substring search over the index's labelled segments
(director lines 259-273) is factored out below. -/
def mockSegmentSearch (manifest : VideoManifest) (query : String) : SearchResult :=
  match (((manifest.videoIndex).map VideoIndex.segments).getD []).find?
      (fun s => jsIncludes (jsToLower s.label) (jsToLower query)) with
  | some matchingSegment =>
    { manifest := manifest, found := true
      segment := some (matchingSegment.startTime, matchingSegment.endTime) }
  | none => { manifest := manifest, found := false }

/-- `searchVideoSegment(manifest, query)` (director lines 230-257 plus the
mock tier above). -/
def searchVideoSegment (manifest : VideoManifest) (query : String) (nowMs : ℕ)
    (tlSearch : Option VideoSegment) : SearchResult :=
  let indexed : Option VideoManifest :=
    if jsTruthy ((manifest.videoIndex).map VideoIndex.videoId) then some manifest
    else if jsTruthy manifest.product.videoUrl then
      some { manifest with
             videoIndex := some (createMockVideoIndex (manifest.product.videoUrl.getD "") 30 nowMs) }
    else none
  match indexed with
  | none => { manifest := manifest, found := false }
  | some m =>
    match tlSearch with
    | some segment =>
      { manifest := m, found := true, segment := some (segment.startTime, segment.endTime) }
    | none => mockSegmentSearch m query

/-! ## Director command interpretation (`processDirectorCommand`, `src/unnamed/part_004`) -/

/-- The structured payload of a Director action. The source types `payload`
as a free-form record; these are the fields `processDirectorCommand` reads or
writes. `captionIndex` is an integer because it arrives unchecked from LLM
output. -/
structure ActionPayload where
  themeId : Option String := none
  clipDuration : Option ℕ := none
  captionIndex : Option ℤ := none
  newText : Option String := none
  query : Option String := none
  allCaptions : Option Bool := none
  color : Option String := none
  fontSize : Option String := none
  fontWeight : Option ℕ := none
deriving DecidableEq, Repr

/-- `DirectorAction` — `{type, payload, reasoning}`. -/
structure DirectorAction where
  type : String
  payload : ActionPayload := {}
  reasoning : Option String := none
deriving DecidableEq, Repr

/-- `DirectorResponse` — `{manifest, actions, message}`. -/
structure DirectorResponse where
  manifest : VideoManifest
  actions : List DirectorAction
  message : String
deriving DecidableEq, Repr

/-- The optional `manifestChanges` patch of a parsed LLM response. The parsed
caption entries are complete `Caption` records (the object spread
`{ ...caption, ...newCaptions[idx] }` in the source then replaces every field). -/
structure ManifestChanges where
  theme : Option Theme := none
  captions : Option (List Caption) := none
  clips : Option (List Clip) := none
  script : Option String := none
deriving DecidableEq, Repr

/-- The JSON object `extractJSON` recovers from the Gemini text response. -/
structure ParsedDirectorOutput where
  actions : Option (List DirectorAction) := none
  message : Option String := none
  manifestChanges : Option ManifestChanges := none
deriving DecidableEq, Repr

/-- Outcome of the Gemini round trip inside `processDirectorCommand`:
`failure` for a thrown error (every model failed or a non-retryable status),
`unparsable` when `extractJSON` returned `null`, `parsed` on success. -/
inductive LLMOutcome
  | failure
  | unparsable
  | parsed (output : ParsedDirectorOutput)
deriving DecidableEq, Repr

/-- The Director's effectful context, passed explicitly: `llm = none` models a
missing `GOOGLE_GENAI_API_KEY` (demo mode); `now` is
`new Date().toISOString()`; `nowMs` is `Date.now()`; `tlSearch` is the
TwelveLabs outcome as in `searchVideoSegment`. -/
structure DirectorEnv where
  llm : Option LLMOutcome := none
  now : String := ""
  nowMs : ℕ := 0
  tlSearch : Option VideoSegment := none

/-- Luxury/Premium theme trigger keywords (director lines 290-294). -/
def luxeKeywords : List String := ["luxe", "luxur", "premium", "elegant", "gold"]

/-- Cyber/Energetic theme trigger keywords (director lines 312-317). -/
def cyberKeywords : List String := ["cyber", "neon", "energy", "hype", "intense", "vibrant"]

/-- Minimal/Clean theme trigger keywords (director lines 335-339). -/
def minimalKeywords : List String := ["minimal", "clean", "simple", "subtle", "calm"]

/-- Faster pacing trigger keywords (director lines 357-360). -/
def fasterKeywords : List String := ["faster", "speed up", "quicker", "rapid"]

/-- Slower pacing trigger keywords (director lines 377-380). -/
def slowerKeywords : List String := ["slower", "slow down", "calm", "relaxed"]

/-- Font-size trigger keywords (director lines 437, 458). -/
def sizeKeywords : List String := ["bigger", "larger", "smaller"]

/-- Font-weight trigger keywords (director lines 480, 501). -/
def weightKeywords : List String := ["bolder", "thicker", "thinner", "lighter font"]

/-- `colorKeywords` (director lines 398-410), in object-entry order. -/
def colorKeywords : List (String × String) :=
  [ ("red", "#ff0000"), ("blue", "#0088ff"), ("green", "#00ff88"), ("yellow", "#ffff00")
  , ("orange", "#ff8800"), ("pink", "#ff00aa"), ("purple", "#aa00ff"), ("white", "#ffffff")
  , ("black", "#000000"), ("cyan", "#00ffff"), ("magenta", "#ff00ff") ]

/-- Disjunction of `lowerMessage.includes(k)` over a keyword list. -/
def matchesAny (lowerMessage : String) (keywords : List String) : Bool :=
  keywords.any fun k => jsIncludes lowerMessage k

/-- The color rule's `for`-loop (director lines 412-434): first color name
contained in the message, provided one of "text"/"caption"/"color" also is. -/
def findColorMatch (lowerMessage : String) : Option (String × String) :=
  colorKeywords.find? fun kv =>
    jsIncludes lowerMessage kv.1 &&
      (jsIncludes lowerMessage "text" || jsIncludes lowerMessage "caption" ||
        jsIncludes lowerMessage "color")

/-- Rewrite every caption with one per-caption style override, bumping the
version (shared shape of the color/size/weight keyword branches). -/
def styleAllCaptions (manifest : VideoManifest) (f : Caption → Caption)
    (now : String) : VideoManifest :=
  { manifest with
    captions := manifest.captions.map f
    version := bumpVersion manifest.version
    updatedAt := some now }

/-- One iteration of the action loop (director lines 585-621): interpret a
parsed `DirectorAction` against the manifest; unknown action types and missing
or falsy payload fields leave the manifest untouched. -/
def applyDirectorAction (env : DirectorEnv) (m : VideoManifest)
    (action : DirectorAction) : VideoManifest :=
  if action.type = "change_theme" then
    match action.payload.themeId with
    | some themeId => if (lookupTheme themeId).isSome then applyTheme m themeId env.now else m
    | none => m
  else if action.type = "adjust_timing" then
    match action.payload.clipDuration with
    | some clipDuration => if 0 < clipDuration then adjustTiming m clipDuration env.now else m
    | none => m
  else if action.type = "update_text" then
    match action.payload.captionIndex, action.payload.newText with
    | some captionIndex, some newText =>
      if newText ≠ "" then updateCaption m captionIndex newText env.now else m
    | _, _ => m
  else if action.type = "search_video" then
    match action.payload.query with
    | some query =>
      if query ≠ "" then (searchVideoSegment m query env.nowMs env.tlSearch).manifest else m
    | none => m
  else m

/-- Application of `parsed.manifestChanges` (director lines 624-655): shallow
theme/clips overwrite, positional caption merge when the patched caption array
is shorter than the current one, `script` replaced only when truthy. -/
def applyManifestChanges (changes : ManifestChanges) (m : VideoManifest) : VideoManifest :=
  let m1 := match changes.theme with
    | some theme => { m with theme := some theme }
    | none => m
  let m2 := match changes.captions with
    | some newCaptions =>
      if 0 < newCaptions.length then
        if newCaptions.length < m1.captions.length then
          { m1 with captions := m1.captions.mapIdx fun idx caption =>
              (newCaptions[idx]?).getD caption }
        else { m1 with captions := newCaptions }
      else m1
    | none => m1
  let m3 := match changes.clips with
    | some clips => { m2 with clips := clips }
    | none => m2
  match changes.script with
  | some script => if script ≠ "" then { m3 with script := script } else m3
  | none => m3

/-- The Gemini tier of `processDirectorCommand` (director lines 533-673):
model ladder failure and parse failure degrade to "no change, explanatory
message"; a parsed response applies its action list left to right, then the
`manifestChanges` patch, then forces `version = (currentManifest.version || 1) + 1`
and a fresh `updatedAt`. -/
def processWithLLM (currentManifest : VideoManifest)
    (env : DirectorEnv) (outcome : LLMOutcome) : DirectorResponse :=
  match outcome with
  | .failure =>
    { manifest := currentManifest, actions := []
      message := "I encountered an error processing your request. Please try again." }
  | .unparsable =>
    { manifest := currentManifest, actions := []
      message := "I understood your request but had trouble processing it. Could you try rephrasing?" }
  | .parsed parsed =>
    let afterActions := (parsed.actions.getD []).foldl (applyDirectorAction env) currentManifest
    let afterChanges := match parsed.manifestChanges with
      | some changes => applyManifestChanges changes afterActions
      | none => afterActions
    { manifest := { afterChanges with
        version := bumpVersion currentManifest.version
        updatedAt := some env.now }
      actions := parsed.actions.getD []
      message := jsOrString parsed.message "I've made the changes you requested!" }

/-- `processDirectorCommand(userMessage, currentManifest)` (director lines
276-674): the deterministic keyword tier in source order — luxe, cyber and
minimal theme rules, faster and slower pacing rules, the color loop, size and
weight rules — then the demo-mode fallback or the Gemini tier. -/
def processDirectorCommand (userMessage : String) (currentManifest : VideoManifest)
    (env : DirectorEnv) : DirectorResponse :=
  let lowerMessage := jsToLower userMessage
  if matchesAny lowerMessage luxeKeywords then
    { manifest := applyTheme currentManifest "luxe" env.now
      actions := [{ type := "change_theme", payload := { themeId := some "luxe" }
                    reasoning := some "User requested luxury aesthetic" }]
      message := "I've applied the Luxe theme! Gold tones, elegant fades, and Ken Burns zoom effects for a premium feel." }
  else if matchesAny lowerMessage cyberKeywords then
    { manifest := applyTheme currentManifest "cyber" env.now
      actions := [{ type := "change_theme", payload := { themeId := some "cyber" }
                    reasoning := some "User requested energetic/cyberpunk aesthetic" }]
      message := "Switched to Cyber theme! Neon colors, glitch effects, and fast cuts for maximum energy." }
  else if matchesAny lowerMessage minimalKeywords then
    { manifest := applyTheme currentManifest "minimal" env.now
      actions := [{ type := "change_theme", payload := { themeId := some "minimal" }
                    reasoning := some "User requested minimal aesthetic" }]
      message := "Applied Minimal theme! Clean slides, typewriter text, and lofi vibes." }
  else if matchesAny lowerMessage fasterKeywords then
    { manifest := adjustTiming currentManifest 30 env.now
      actions := [{ type := "adjust_timing", payload := { clipDuration := some 30 }
                    reasoning := some "User wants faster pace" }]
      message := "Done! Clips are now faster for a more dynamic feel." }
  else if matchesAny lowerMessage slowerKeywords then
    { manifest := adjustTiming currentManifest 90 env.now
      actions := [{ type := "adjust_timing", payload := { clipDuration := some 90 }
                    reasoning := some "User wants slower pace" }]
      message := "Slowed things down for a more cinematic, luxurious feel." }
  else
    match findColorMatch lowerMessage with
    | some (colorName, colorHex) =>
      { manifest := styleAllCaptions currentManifest
          (fun c => { c with color := some colorHex }) env.now
        actions := [{ type := "style_caption"
                      payload := { allCaptions := some true, color := some colorHex }
                      reasoning := some ("User wants " ++ colorName ++ " text") }]
        message := "Done! All captions are now " ++ colorName ++ "." }
    | none =>
      if jsIncludes lowerMessage "bigger" || jsIncludes lowerMessage "larger" then
        { manifest := styleAllCaptions currentManifest
            (fun c => { c with fontSize := some "clamp(64px, 12vw, 120px)" }) env.now
          actions := [{ type := "style_caption"
                        payload := { allCaptions := some true
                                     fontSize := some "clamp(64px, 12vw, 120px)" }
                        reasoning := some "User wants bigger text" }]
          message := "Made all captions bigger!" }
      else if jsIncludes lowerMessage "smaller" then
        { manifest := styleAllCaptions currentManifest
            (fun c => { c with fontSize := some "clamp(32px, 5vw, 48px)" }) env.now
          actions := [{ type := "style_caption"
                        payload := { allCaptions := some true
                                     fontSize := some "clamp(32px, 5vw, 48px)" }
                        reasoning := some "User wants smaller text" }]
          message := "Made all captions smaller!" }
      else if jsIncludes lowerMessage "bolder" || jsIncludes lowerMessage "thicker" then
        { manifest := styleAllCaptions currentManifest
            (fun c => { c with fontWeight := some 900 }) env.now
          actions := [{ type := "style_caption"
                        payload := { allCaptions := some true, fontWeight := some 900 }
                        reasoning := some "User wants bolder text" }]
          message := "Made all captions bolder!" }
      else if jsIncludes lowerMessage "thinner" || jsIncludes lowerMessage "lighter font" then
        { manifest := styleAllCaptions currentManifest
            (fun c => { c with fontWeight := some 400 }) env.now
          actions := [{ type := "style_caption"
                        payload := { allCaptions := some true, fontWeight := some 400 }
                        reasoning := some "User wants thinner text" }]
          message := "Made all captions thinner!" }
      else
        match env.llm with
        | none =>
          { manifest := currentManifest, actions := []
            message := "I didn't understand \"" ++ userMessage ++ "\". Try: \"make it luxurious\", \"add energy\", \"make text red\", \"make text bigger\", \"speed it up\". (Demo mode - add GOOGLE_GENAI_API_KEY for full AI capabilities)" }
        | some outcome => processWithLLM currentManifest env outcome

/-! ## Text animation engine (`remotion/components/DynamicText.tsx`) and
transition effects (`remotion/MyComposition.tsx`, `src/unnamed/part_007`).

Remotion's seeded `random(seed)` is a fixed pure hash `String → ℚ`; it and
`Math.sin` enter as explicit function arguments. Frame counts are naturals,
all other arithmetic is exact over `ℚ`. -/

/-- Remotion `interpolate(frame, [a, b], [oa, ob], { extrapolateRight: "clamp" })`
with the default extending left edge, for an increasing input range. -/
def interpolateRightClamp (f a b oa ob : ℚ) : ℚ :=
  if b ≤ f then ob else oa + (f - a) / (b - a) * (ob - oa)

/-- `getTypewriterStyle`'s `charsToShow` (DynamicText lines 175-179):
`Math.floor(interpolate(frame, [0, durationInFrames * 0.6], [0, text.length],
{ extrapolateRight: "clamp" }))`. -/
def typewriterCharsToShow (frame durationInFrames textLength : ℕ) : ℤ :=
  Int.floor (interpolateRightClamp (frame : ℚ) 0 ((durationInFrames : ℚ) * 0.6) 0
    (textLength : ℚ))

/-- The typewriter caption's visible text, `text.slice(0, charsToShow)`
(DynamicText line 225). -/
def typewriterVisibleText (text : String) (frame durationInFrames : ℕ) : String :=
  String.mk (text.toList.take (typewriterCharsToShow frame durationInFrames text.length).toNat)

/-- The CSS properties `getGlitchStyle` computes (DynamicText lines 129-150).
The numeric arguments of `transform: translateX(_px)` and of the RGB-split
`text-shadow` are kept as rationals alongside the interpolated strings. -/
structure GlitchStyleProps where
  glitchOffset : ℚ
  transform : String
  color : String
  fontSize : String
  fontWeight : ℕ
  fontFamily : String
  textTransform : String
  letterSpacing : String
  rgbOffset : ℚ
deriving DecidableEq, Repr

/-- `getGlitchStyle` of the themed `DynamicText` (DynamicText lines 129-150):
per-frame deterministic pseudo-randomness from Remotion's seeded
`random("glitch-" + frame)` / `random("offset-" + frame)`. -/
def getGlitchStyle (hash : String → ℚ) (sine : ℚ → ℚ) (frame : ℕ)
    (theme : Theme) : GlitchStyleProps :=
  let glitchSeed := hash ("glitch-" ++ toString frame)
  let shouldGlitch := glitchSeed > 0.9
  let glitchOffset := if shouldGlitch then hash ("offset-" ++ toString frame) * 10 - 5 else 0
  let rgbOffset := 3 + sine ((frame : ℚ) * 0.3) * 2
  { glitchOffset := glitchOffset
    transform := "translateX(" ++ toString glitchOffset ++ "px)"
    color := theme.accentColor
    fontSize := "clamp(40px, 7vw, 64px)"
    fontWeight := 800
    fontFamily := theme.fontFamily ++ ", sans-serif"
    textTransform := "uppercase"
    letterSpacing := "0.02em"
    rgbOffset := rgbOffset }

/-- The CSS properties of the legacy `getGlitchStyle` (`src/unnamed/part_008`
lines 102-120), which draws from the stateful `Math.random()` twice. -/
structure LegacyGlitchStyleProps where
  glitchOffset : ℚ
  transform : String
  color : String
  fontSize : String
  fontWeight : ℕ
  fontFamily : String
  textTransform : String
  rgbOffset : ℚ
deriving DecidableEq, Repr

/-- Legacy `getGlitchStyle` (`src/unnamed/part_008` lines 102-120):
`Math.random() > 0.9 ? Math.random() * 10 - 5 : 0`. The two `Math.random()`
draws are the ambient RNG state at evaluation time, passed here as
`randomDraw1`/`randomDraw2`; they are not functions of `frame`. -/
def getGlitchStyleLegacy (sine : ℚ → ℚ) (frame : ℕ)
    (randomDraw1 randomDraw2 : ℚ) : LegacyGlitchStyleProps :=
  let glitchOffset := if randomDraw1 > 0.9 then randomDraw2 * 10 - 5 else 0
  let rgbOffset := 3 + sine ((frame : ℚ) * 0.3) * 2
  { glitchOffset := glitchOffset
    transform := "translateX(" ++ toString glitchOffset ++ "px)"
    color := "#fff"
    fontSize := "64px"
    fontWeight := 800
    fontFamily := "Oswald, sans-serif"
    textTransform := "uppercase"
    rgbOffset := rgbOffset }

/-- The style a `TransitionEffect` wraps its children in
(`src/unnamed/part_007` lines 23-82): only the properties each branch sets. -/
structure TransitionStyle where
  transform : Option String := none
  filter : Option String := none
  opacity : Option ℚ := none
deriving DecidableEq, Repr

/-- `TransitionEffect` (`src/unnamed/part_007` lines 23-82), as the style it
computes from `(type, progress)`; the glitch branch's randomness is Remotion's
seeded `random("glitch-" + progress)`. -/
def transitionEffect (hash : String → ℚ) (type : TransitionType)
    (progress : ℚ) : TransitionStyle :=
  match type with
  | .glitch =>
    let glitchOffset := if progress < 0.1 then hash ("glitch-" ++ toString progress) * 10 else 0
    let rgbSplit : ℚ := if progress < 0.1 then 3 else 0
    { transform := some ("translateX(" ++ toString glitchOffset ++ "px)")
      filter := some (if progress < 0.1 then
          "drop-shadow(" ++ toString rgbSplit ++ "px 0 0 #ff0066) drop-shadow(-" ++
            toString rgbSplit ++ "px 0 0 #00ffff)"
        else "none") }
  | .fade => { opacity := some (min 1 (progress * 3)) }
  | .slide =>
    { transform := some ("translateX(" ++
        toString (interpolateRightClamp progress 0 0.3 100 0) ++ "%)") }
  | .zoom =>
    { transform := some ("scale(" ++
        toString (interpolateRightClamp progress 0 0.2 1.5 1) ++ ")")
      opacity := some (interpolateRightClamp progress 0 0.15 0 1) }

/-! ## Sample data for witnesses -/

/-- A concrete product for witness manifests. -/
def sampleProduct : Product :=
  { title := "Sample Speaker", price := "$149.99", image := "https://example.com/img.png" }

/-- A concrete clip for witness manifests. -/
def sampleClip (s d : ℕ) : Clip :=
  { startFrame := s, duration := d, url := "https://example.com/clip.mp4" }

/-- The spec scenario manifest: 3 clips of 100 frames over a 300-frame timeline. -/
def tilingManifest : VideoManifest :=
  { script := "CHECK THIS OUT"
    captions := [{ startFrame := 0, endFrame := 60, text := "CHECK THIS OUT", style := .impact }]
    clips := [sampleClip 0 100, sampleClip 100 100, sampleClip 200 100]
    product := sampleProduct
    durationInFrames := 300 }

/-- The C7 scenario manifest: cyber theme, captions "A" and "B". -/
def redManifest : VideoManifest :=
  { script := "A\nB"
    captions :=
      [ { startFrame := 0, endFrame := 60, text := "A", style := .glitch }
      , { startFrame := 60, endFrame := 120, text := "B", style := .glitch } ]
    clips := [sampleClip 0 120]
    product := sampleProduct
    theme := some cyberTheme
    durationInFrames := 120 }

/-- An LLM response with an empty action list, a message and no
`manifestChanges`. -/
def emptyParsedOutput : ParsedDirectorOutput :=
  { actions := some [], message := some "Nothing to do!", manifestChanges := none }

/-- Helper: under the manifest invariant `1 ≤ version`, the JS bump
`(version || 1) + 1` is exactly `version + 1`. -/
theorem bumpVersion_eq (v : ℕ) (hv : 1 ≤ v) : bumpVersion v = v + 1 := by
  have hne : v ≠ 0 := by omega
  simp [bumpVersion, hne]

/-! ## Claims -/

/-- **C2.** For every manifest with at least one clip and every target duration
`d`, after `adjustTiming(m, d)` every clip's duration equals
`min(d, floor(durationInFrames / clipCount))` and `clip[i].startFrame` is
`i` times that actual duration, so consecutive clips are contiguous and
non-overlapping; with zero clips `adjustTiming` returns the manifest
unchanged. -/
theorem adjustTiming_uniform_tiling (m : VideoManifest) (d : ℕ) (now : String) :
    (m.clips = [] → adjustTiming m d now = m) ∧
    (m.clips ≠ [] →
      ((adjustTiming m d now).clips.length = m.clips.length ∧
        (∀ i, i < m.clips.length →
          ((adjustTiming m d now).clips[i]?.map Clip.duration =
              some (min d (m.durationInFrames / m.clips.length)) ∧
            (adjustTiming m d now).clips[i]?.map Clip.startFrame =
              some (i * min d (m.durationInFrames / m.clips.length)))) ∧
        (∀ i, i + 1 < m.clips.length →
          (adjustTiming m d now).clips[i + 1]?.map Clip.startFrame =
            (adjustTiming m d now).clips[i]?.map fun c => c.startFrame + c.duration))) := by
  constructor
  · intro h
    simp [adjustTiming, h]
  · intro h
    have hne : ¬ m.clips.length = 0 := by simpa [List.length_eq_zero] using h
    refine ⟨?_, ?_, ?_⟩
    · simp [adjustTiming, hne, List.length_mapIdx]
    · intro i hi
      have hget : m.clips[i]? = some (m.clips[i]) := List.getElem?_eq_getElem hi
      constructor <;>
        simp [adjustTiming, hne, List.getElem?_mapIdx, hget]
    · intro i hi
      have hi1 : i < m.clips.length := Nat.lt_of_succ_lt hi
      have hget : m.clips[i]? = some (m.clips[i]) := List.getElem?_eq_getElem hi1
      have hget1 : m.clips[i + 1]? = some (m.clips[i + 1]) := List.getElem?_eq_getElem hi
      simp [adjustTiming, hne, List.getElem?_mapIdx, hget, hget1, Nat.succ_mul]

/-- Witness for C2: the spec scenario — 3 clips of duration 100 over a
300-frame timeline, `adjustTiming(m, 30)` gives every clip duration 30 and
startFrames 0/30/60. -/
theorem adjustTiming_uniform_tiling_witness :
    tilingManifest.clips ≠ [] ∧
    (adjustTiming tilingManifest 30 "t").clips[1]?.map Clip.duration = some 30 ∧
    (adjustTiming tilingManifest 30 "t").clips[1]?.map Clip.startFrame = some 30 := by
  have h := ((adjustTiming_uniform_tiling tilingManifest 30 "t").2 (by decide)).2.1 1 (by decide)
  refine ⟨by decide, ?_, ?_⟩
  · simpa [tilingManifest] using h.1
  · simpa [tilingManifest] using h.2

/-- **C3.** `applyTheme` with an unknown theme id returns the manifest
unchanged (no version bump); with a known theme id it installs the preset,
rewrites every clip's transition to the theme's transition and every caption's
style to the theme's `textAnimation`, bumps `version` by one, and leaves every
other caption field (text, frames, position, per-caption overrides), the clip
timing fields and the script unchanged. The hypothesis `1 ≤ m.version` is the
manifest invariant (versions start at 1); `version || 1` makes version 0
behave as 1. -/
theorem applyTheme_resets_styles (m : VideoManifest) (tid : String) (now : String)
    (hv : 1 ≤ m.version) :
    (lookupTheme tid = none → applyTheme m tid now = m) ∧
    (∀ th, lookupTheme tid = some th →
      ((applyTheme m tid now).theme = some th ∧
        (applyTheme m tid now).version = m.version + 1 ∧
        (applyTheme m tid now).script = m.script ∧
        (applyTheme m tid now).durationInFrames = m.durationInFrames ∧
        (applyTheme m tid now).clips.length = m.clips.length ∧
        (applyTheme m tid now).captions.length = m.captions.length ∧
        (∀ i : ℕ,
          ((applyTheme m tid now).clips[i]?.map Clip.transition =
              (m.clips[i]?.map fun _ => some th.transition) ∧
            (applyTheme m tid now).clips[i]?.map Clip.startFrame =
              m.clips[i]?.map Clip.startFrame ∧
            (applyTheme m tid now).clips[i]?.map Clip.duration =
              m.clips[i]?.map Clip.duration ∧
            (applyTheme m tid now).clips[i]?.map Clip.url = m.clips[i]?.map Clip.url)) ∧
        (∀ i : ℕ,
          ((applyTheme m tid now).captions[i]?.map Caption.style =
              (m.captions[i]?.map fun _ => th.textAnimation) ∧
            (applyTheme m tid now).captions[i]?.map Caption.text =
              m.captions[i]?.map Caption.text ∧
            (applyTheme m tid now).captions[i]?.map Caption.startFrame =
              m.captions[i]?.map Caption.startFrame ∧
            (applyTheme m tid now).captions[i]?.map Caption.endFrame =
              m.captions[i]?.map Caption.endFrame ∧
            (applyTheme m tid now).captions[i]?.map Caption.position =
              m.captions[i]?.map Caption.position ∧
            (applyTheme m tid now).captions[i]?.map Caption.color =
              m.captions[i]?.map Caption.color ∧
            (applyTheme m tid now).captions[i]?.map Caption.fontSize =
              m.captions[i]?.map Caption.fontSize ∧
            (applyTheme m tid now).captions[i]?.map Caption.fontWeight =
              m.captions[i]?.map Caption.fontWeight ∧
            (applyTheme m tid now).captions[i]?.map Caption.fontFamily =
              m.captions[i]?.map Caption.fontFamily)))) := by
  constructor
  · intro h
    simp [applyTheme, h]
  · intro th h
    have hb : bumpVersion m.version = m.version + 1 := bumpVersion_eq m.version hv
    refine ⟨?_, ?_, ?_, ?_, ?_, ?_, ?_, ?_⟩ <;>
      simp [applyTheme, h, hb, List.getElem?_map] <;>
      intro i <;>
      cases m.clips[i]? <;> cases m.captions[i]? <;> simp

/-- Witness for C3: applying the luxe preset to the sample manifest bumps the
version to 2 and rewrites the style fields. -/
theorem applyTheme_resets_styles_witness :
    lookupTheme "luxe" = some luxeTheme ∧
    (applyTheme tilingManifest "luxe" "t").theme = some luxeTheme ∧
    (applyTheme tilingManifest "luxe" "t").version = tilingManifest.version + 1 := by
  have h := (applyTheme_resets_styles tilingManifest "luxe" "t" (by decide)).2 luxeTheme rfl
  exact ⟨rfl, h.1, h.2.1⟩

/-- **C4.** `updateCaption`: with an in-range index, caption `i`'s text becomes
`T`, every other caption and every other field of caption `i` is unchanged,
`script` is the newline-join of all caption texts in order, and the version is
incremented; with an out-of-range index (negative or past the end) the result
is the input manifest, version not incremented. -/
theorem updateCaption_roundtrip (m : VideoManifest) (i : ℤ) (T now : String)
    (hv : 1 ≤ m.version) :
    ((i < 0 ∨ (m.captions.length : ℤ) ≤ i) → updateCaption m i T now = m) ∧
    (0 ≤ i → i < (m.captions.length : ℤ) →
      ((updateCaption m i T now).captions[i.toNat]?.map Caption.text = some T ∧
        ((updateCaption m i T now).captions[i.toNat]?.map fun c =>
            (c.startFrame, c.endFrame, c.style, c.position, c.color, c.fontSize,
              c.fontWeight, c.fontFamily)) =
          (m.captions[i.toNat]?.map fun c =>
            (c.startFrame, c.endFrame, c.style, c.position, c.color, c.fontSize,
              c.fontWeight, c.fontFamily)) ∧
        (∀ j : ℕ, j ≠ i.toNat →
          (updateCaption m i T now).captions[j]? = m.captions[j]?) ∧
        (updateCaption m i T now).script =
          String.intercalate "\n" ((updateCaption m i T now).captions.map Caption.text) ∧
        (updateCaption m i T now).version = m.version + 1)) := by
  constructor
  · intro h
    simp only [updateCaption]
    rw [if_pos h]
  · intro h0 hlt
    have hcond : ¬ (i < 0 ∨ (m.captions.length : ℤ) ≤ i) := by omega
    have hnat : i.toNat < m.captions.length := by omega
    have hget : m.captions[i.toNat]? = some (m.captions[i.toNat]) :=
      List.getElem?_eq_getElem hnat
    refine ⟨?_, ?_, ?_, ?_, ?_⟩
    · simp [updateCaption, hcond, List.getElem?_mapIdx, hget]
    · simp [updateCaption, hcond, List.getElem?_mapIdx, hget]
    · intro j hj
      by_cases hjl : j < m.captions.length
      · have hgj : m.captions[j]? = some (m.captions[j]) := List.getElem?_eq_getElem hjl
        simp [updateCaption, hcond, List.getElem?_mapIdx, hgj, hj]
      · have hgj : m.captions[j]? = none := by
          simp [List.getElem?_eq_none_iff]
          omega
        simp [updateCaption, hcond, List.getElem?_mapIdx, hgj]
    · simp [updateCaption, hcond]
    · simp [updateCaption, hcond, bumpVersion_eq m.version hv]

/-- Witness for C4: updating caption 0 of the sample manifest. -/
theorem updateCaption_roundtrip_witness :
    (0 : ℤ) ≤ 0 ∧ (0 : ℤ) < (tilingManifest.captions.length : ℤ) ∧
    (updateCaption tilingManifest 0 "NEW LINE" "t").captions[(0 : ℤ).toNat]?.map
      Caption.text = some "NEW LINE" ∧
    (updateCaption tilingManifest 0 "NEW LINE" "t").version = tilingManifest.version + 1 := by
  have h := (updateCaption_roundtrip tilingManifest 0 "NEW LINE" "t" (by decide)).2
    (by decide) (by decide)
  exact ⟨by decide, by decide, h.1, h.2.2.2.2⟩

/-- Helper: the input edge `frame ≥ 0.6 × duration` of the typewriter
interpolation, as a statement over naturals. -/
theorem typewriter_threshold (frame dur : ℕ) :
    ((dur : ℚ) * 0.6 ≤ (frame : ℚ)) ↔ 3 * dur ≤ 5 * frame := by
  rw [show (0.6 : ℚ) = 3 / 5 by norm_num]
  constructor
  · intro h
    have h5 : ((3 * dur : ℕ) : ℚ) ≤ ((5 * frame : ℕ) : ℚ) := by push_cast; linarith
    exact_mod_cast h5
  · intro h
    have h5 : ((3 * dur : ℕ) : ℚ) ≤ ((5 * frame : ℕ) : ℚ) := by exact_mod_cast h
    push_cast at h5
    linarith

/-- Helper: `charsToShow` is never negative. -/
theorem typewriterCharsToShow_nonneg (frame dur len : ℕ) :
    0 ≤ typewriterCharsToShow frame dur len := by
  unfold typewriterCharsToShow interpolateRightClamp
  split
  · simp
  · apply Int.floor_nonneg.mpr
    rw [sub_zero, sub_zero, sub_zero, zero_add]
    positivity

/-- Helper: `charsToShow` never exceeds the text length. -/
theorem typewriterCharsToShow_le (frame dur len : ℕ) :
    typewriterCharsToShow frame dur len ≤ (len : ℤ) := by
  unfold typewriterCharsToShow interpolateRightClamp
  split
  · simp
  · rename_i h
    have hfb : (frame : ℚ) < (dur : ℚ) * 0.6 := not_le.mp h
    have hb : (0 : ℚ) < (dur : ℚ) * 0.6 := lt_of_le_of_lt (by positivity) hfb
    have hval : 0 + ((frame : ℚ) - 0) / ((dur : ℚ) * 0.6 - 0) * ((len : ℚ) - 0) ≤ (len : ℚ) := by
      rw [sub_zero, sub_zero, sub_zero, zero_add]
      have hr : (frame : ℚ) / ((dur : ℚ) * 0.6) ≤ 1 := (div_le_one hb).mpr (le_of_lt hfb)
      calc (frame : ℚ) / ((dur : ℚ) * 0.6) * (len : ℚ)
          ≤ 1 * (len : ℚ) := mul_le_mul_of_nonneg_right hr (by positivity)
        _ = (len : ℚ) := one_mul _
    calc Int.floor (0 + ((frame : ℚ) - 0) / ((dur : ℚ) * 0.6 - 0) * ((len : ℚ) - 0))
        ≤ Int.floor ((len : ℚ)) := Int.floor_le_floor hval
      _ = (len : ℤ) := Int.floor_natCast len

/-- Helper: from 60% of the caption's duration on, `charsToShow` is the whole
text length. -/
theorem typewriterCharsToShow_full (frame dur len : ℕ) (h : 3 * dur ≤ 5 * frame) :
    typewriterCharsToShow frame dur len = (len : ℤ) := by
  unfold typewriterCharsToShow interpolateRightClamp
  rw [if_pos ((typewriter_threshold frame dur).mpr h)]
  exact Int.floor_natCast len

/-- Helper: at frame 0 of a nonempty caption window, `charsToShow` is 0. -/
theorem typewriterCharsToShow_zero (dur len : ℕ) (hd : 0 < dur) :
    typewriterCharsToShow 0 dur len = 0 := by
  unfold typewriterCharsToShow interpolateRightClamp
  rw [if_neg]
  · norm_num
  · push_neg
    push_cast
    exact mul_pos (by exact_mod_cast hd) (by norm_num)

/-- Helper: the visible text's length is `min charsToShow.toNat text.length`. -/
theorem typewriterVisibleText_length (text : String) (frame dur : ℕ) :
    (typewriterVisibleText text frame dur).length =
      min (typewriterCharsToShow frame dur text.length).toNat text.length := by
  unfold typewriterVisibleText
  show (text.toList.take _).length = _
  rw [List.length_take]
  rfl

/-- **C5.** For a typewriter caption over a window of `dur > 0` frames: at
relative frame 0 no character is visible; at every frame the number of visible
characters equals `floor(interpolate(frame, [0, 0.6 × dur], [0, textLength]))`;
at `frame = 0.6 × dur` (expressed integrally as `5 × frame = 3 × dur`) exactly
`text.length` characters are visible, and they stay fully visible at every
later frame. -/
theorem typewriter_reveal (text : String) (frame dur : ℕ) (hd : 0 < dur) :
    ((typewriterVisibleText text 0 dur).length = 0 ∧
      ((typewriterVisibleText text frame dur).length : ℤ) =
        typewriterCharsToShow frame dur text.length ∧
      (5 * frame = 3 * dur → (typewriterVisibleText text frame dur).length = text.length) ∧
      (3 * dur ≤ 5 * frame → (typewriterVisibleText text frame dur).length = text.length)) := by
  have hnn := typewriterCharsToShow_nonneg frame dur text.length
  have hle := typewriterCharsToShow_le frame dur text.length
  have hlen := typewriterVisibleText_length text frame dur
  refine ⟨?_, ?_, ?_, ?_⟩
  · rw [typewriterVisibleText_length text 0 dur, typewriterCharsToShow_zero dur text.length hd]
    simp
  · rw [hlen]
    omega
  · intro h
    have hfull := typewriterCharsToShow_full frame dur text.length (by omega)
    rw [hlen, hfull]
    simp
  · intro h
    have hfull := typewriterCharsToShow_full frame dur text.length h
    rw [hlen, hfull]
    simp

/-- Witness for C5: the caption "HELLO" over a 10-frame window is fully
revealed at frame 6 (= 0.6 × 10). -/
theorem typewriter_reveal_witness :
    0 < 10 ∧ (typewriterVisibleText "HELLO" 0 10).length = 0 ∧
    (typewriterVisibleText "HELLO" 6 10).length = "HELLO".length := by
  have h0 := (typewriter_reveal "HELLO" 6 10 (by decide)).1
  have h6 := (typewriter_reveal "HELLO" 6 10 (by decide)).2.2.1 (by decide)
  exact ⟨by decide, h0, h6⟩

/-- Helper: `matchesAny` distributes over list append. -/
theorem matchesAny_append (s : String) (a b : List String) :
    matchesAny s (a ++ b) = (matchesAny s a || matchesAny s b) := by
  simp [matchesAny]

/-- Helper: a string with a nonempty prefix is nonempty. -/
theorem ne_empty_of_append_left (a b : String) (ha : a ≠ "") : a ++ b ≠ "" := by
  intro h
  have hlen := congrArg String.length h
  rw [String.length_append] at hlen
  have h0 : ("" : String).length = 0 := rfl
  rw [h0] at hlen
  have hz : a.length = 0 := by omega
  unfold String.length at hz
  exact ha (String.ext (List.length_eq_zero.mp hz))

/-- Helper: the JS `||` fallback of a nonempty default is nonempty. -/
theorem jsOrString_ne_empty (s : Option String) (d : String) (hd : d ≠ "") :
    jsOrString s d ≠ "" := by
  unfold jsOrString
  cases s with
  | none => exact hd
  | some v =>
    by_cases hv : v = ""
    · simp [hv, hd]
    · simp [hv]

/-- Helper: every Gemini-tier outcome carries a nonempty message. -/
theorem processWithLLM_message_ne_empty (m : VideoManifest) (env : DirectorEnv)
    (outcome : LLMOutcome) : (processWithLLM m env outcome).message ≠ "" := by
  cases outcome with
  | failure =>
    show ("I encountered an error processing your request. Please try again." : String) ≠ ""
    decide
  | unparsable =>
    show ("I understood your request but had trouble processing it. Could you try rephrasing?" : String) ≠ ""
    decide
  | parsed p => exact jsOrString_ne_empty p.message _ (by decide)

/-- **C6 counterexample.** The keyword rule classes are not mutually
exclusive: the single word "calm" is simultaneously a theme trigger keyword
(minimal: "minimal"/"clean"/"simple"/"subtle"/"calm") and a pacing trigger
keyword (slower: "slower"/"slow down"/"calm"/"relaxed"). -/
theorem keyword_classes_overlap_on_calm :
    matchesAny (jsToLower "calm") (luxeKeywords ++ cyberKeywords ++ minimalKeywords) = true ∧
    matchesAny (jsToLower "calm") (fasterKeywords ++ slowerKeywords) = true := by
  decide

/-- **C6 amended.** Matching is case-insensitive substring search and the
first matching rule wins, but the rule classes are not mutually exclusive:
"calm" triggers both the minimal-theme rule and the slower-pacing rule, and
the minimal-theme rule (checked first) wins. -/
theorem calm_first_matching_rule_wins (m : VideoManifest) (env : DirectorEnv) :
    (processDirectorCommand "calm" m env).manifest = applyTheme m "minimal" env.now ∧
    (processDirectorCommand "calm" m env).actions =
      [{ type := "change_theme", payload := { themeId := some "minimal" }
         reasoning := some "User requested minimal aesthetic" }] := by
  exact ⟨rfl, rfl⟩

/-- Witness for C6 amended: instantiated at the sample manifest. -/
theorem calm_first_matching_rule_wins_witness :
    (processDirectorCommand "calm" tilingManifest {}).manifest =
      applyTheme tilingManifest "minimal" "" :=
  (calm_first_matching_rule_wins tilingManifest {}).1

/-- **C7.** For a manifest with theme cyber and two captions "A" and "B", the
Director command "make the text red" gives every caption the per-caption
override `color = "#ff0000"` and bumps the version by one (under the manifest
invariant `1 ≤ version`). -/
theorem make_text_red_scenario (m : VideoManifest) (env : DirectorEnv)
    (hv : 1 ≤ m.version) (_htheme : m.theme = some cyberTheme)
    (htexts : m.captions.map Caption.text = ["A", "B"]) :
    (processDirectorCommand "make the text red" m env).manifest.captions.map Caption.color =
      [some "#ff0000", some "#ff0000"] ∧
    (processDirectorCommand "make the text red" m env).manifest.version = m.version + 1 := by
  have hred : processDirectorCommand "make the text red" m env =
      { manifest := styleAllCaptions m (fun c => { c with color := some "#ff0000" }) env.now
        actions := [{ type := "style_caption"
                      payload := { allCaptions := some true, color := some "#ff0000" }
                      reasoning := some ("User wants " ++ "red" ++ " text") }]
        message := "Done! All captions are now " ++ "red" ++ "." } := rfl
  have hlen : m.captions.length = 2 := by
    have := congrArg List.length htexts
    simpa using this
  obtain ⟨c1, c2, hcap⟩ := List.length_eq_two.mp hlen
  constructor
  · rw [hred]
    simp [styleAllCaptions, hcap]
  · rw [hred]
    simp [styleAllCaptions, bumpVersion_eq m.version hv]

/-- Witness for C7: the scenario run on the concrete manifest. -/
theorem make_text_red_scenario_witness :
    (processDirectorCommand "make the text red" redManifest {}).manifest.captions.map
        Caption.color = [some "#ff0000", some "#ff0000"] ∧
    (processDirectorCommand "make the text red" redManifest {}).manifest.version =
      redManifest.version + 1 := by
  exact make_text_red_scenario redManifest {} (by decide) rfl (by decide)

/-- **C8.** A Director command matching no keyword rule, processed with no LLM
configured, returns the input manifest unchanged (same value, same version)
with an empty action list and a non-empty explanatory message; moreover
`processDirectorCommand` is total and returns a non-empty message on every
input and every LLM outcome (its JS failure modes are the explicit
`failure`/`unparsable` outcomes, which also leave the manifest unchanged). -/
theorem director_fallback_no_change :
    (∀ (cmd : String) (m : VideoManifest) (env : DirectorEnv),
        env.llm = none →
        matchesAny (jsToLower cmd)
          (luxeKeywords ++ cyberKeywords ++ minimalKeywords ++ fasterKeywords ++
            slowerKeywords ++ sizeKeywords ++ weightKeywords) = false →
        findColorMatch (jsToLower cmd) = none →
        ((processDirectorCommand cmd m env).manifest = m ∧
          (processDirectorCommand cmd m env).manifest.version = m.version ∧
          (processDirectorCommand cmd m env).actions = [] ∧
          (processDirectorCommand cmd m env).message ≠ "")) ∧
    (∀ (cmd : String) (m : VideoManifest) (env : DirectorEnv),
      (processDirectorCommand cmd m env).message ≠ "") := by
  constructor
  · intro cmd m env hllm hnk hnc
    rw [matchesAny_append, matchesAny_append, matchesAny_append, matchesAny_append,
      matchesAny_append, matchesAny_append, Bool.or_eq_false_iff, Bool.or_eq_false_iff,
      Bool.or_eq_false_iff, Bool.or_eq_false_iff, Bool.or_eq_false_iff,
      Bool.or_eq_false_iff] at hnk
    have h1 := hnk.1.1.1.1.1.1
    have h2 := hnk.1.1.1.1.1.2
    have h3 := hnk.1.1.1.1.2
    have h4 := hnk.1.1.1.2
    have h5 := hnk.1.1.2
    have h6 : jsIncludes (jsToLower cmd) "bigger" = false ∧
        jsIncludes (jsToLower cmd) "larger" = false ∧
        jsIncludes (jsToLower cmd) "smaller" = false := by
      simpa [matchesAny, sizeKeywords, Bool.or_eq_false_iff] using hnk.1.2
    have h7 : jsIncludes (jsToLower cmd) "bolder" = false ∧
        jsIncludes (jsToLower cmd) "thicker" = false ∧
        jsIncludes (jsToLower cmd) "thinner" = false ∧
        jsIncludes (jsToLower cmd) "lighter font" = false := by
      simpa [matchesAny, weightKeywords, Bool.or_eq_false_iff] using hnk.2
    have hx : processDirectorCommand cmd m env =
        { manifest := m, actions := []
          message := "I didn't understand \"" ++ cmd ++ "\". Try: \"make it luxurious\", \"add energy\", \"make text red\", \"make text bigger\", \"speed it up\". (Demo mode - add GOOGLE_GENAI_API_KEY for full AI capabilities)" } := by
      unfold processDirectorCommand
      simp [h1, h2, h3, h4, h5, hnc, h6.1, h6.2.1, h6.2.2, h7.1, h7.2.1, h7.2.2.1,
        h7.2.2.2, hllm]
    rw [hx]
    refine ⟨rfl, rfl, rfl, ?_⟩
    exact ne_empty_of_append_left _ _ (ne_empty_of_append_left _ _ (by decide))
  · intro cmd m env
    simp only [processDirectorCommand]
    obtain h1 | h1 := Bool.eq_false_or_eq_true (matchesAny (jsToLower cmd) luxeKeywords)
    · rw [h1]
      show ("I've applied the Luxe theme! Gold tones, elegant fades, and Ken Burns zoom effects for a premium feel." : String) ≠ ""
      decide
    obtain h2 | h2 := Bool.eq_false_or_eq_true (matchesAny (jsToLower cmd) cyberKeywords)
    · rw [h1, h2]
      show ("Switched to Cyber theme! Neon colors, glitch effects, and fast cuts for maximum energy." : String) ≠ ""
      decide
    obtain h3 | h3 := Bool.eq_false_or_eq_true (matchesAny (jsToLower cmd) minimalKeywords)
    · rw [h1, h2, h3]
      show ("Applied Minimal theme! Clean slides, typewriter text, and lofi vibes." : String) ≠ ""
      decide
    obtain h4 | h4 := Bool.eq_false_or_eq_true (matchesAny (jsToLower cmd) fasterKeywords)
    · rw [h1, h2, h3, h4]
      show ("Done! Clips are now faster for a more dynamic feel." : String) ≠ ""
      decide
    obtain h5 | h5 := Bool.eq_false_or_eq_true (matchesAny (jsToLower cmd) slowerKeywords)
    · rw [h1, h2, h3, h4, h5]
      show ("Slowed things down for a more cinematic, luxurious feel." : String) ≠ ""
      decide
    rcases _hc : findColorMatch (jsToLower cmd) with _ | ⟨cn, _chx⟩
    rotate_left
    · rw [h1, h2, h3, h4, h5]
      show ("Done! All captions are now " ++ cn ++ "." : String) ≠ ""
      exact ne_empty_of_append_left _ _ (ne_empty_of_append_left _ _ (by decide))
    obtain h6 | h6 := Bool.eq_false_or_eq_true
      (jsIncludes (jsToLower cmd) "bigger" || jsIncludes (jsToLower cmd) "larger")
    · rw [h1, h2, h3, h4, h5, h6]
      show ("Made all captions bigger!" : String) ≠ ""
      decide
    obtain h7 | h7 := Bool.eq_false_or_eq_true (jsIncludes (jsToLower cmd) "smaller")
    · rw [h1, h2, h3, h4, h5, h6, h7]
      show ("Made all captions smaller!" : String) ≠ ""
      decide
    obtain h8 | h8 := Bool.eq_false_or_eq_true
      (jsIncludes (jsToLower cmd) "bolder" || jsIncludes (jsToLower cmd) "thicker")
    · rw [h1, h2, h3, h4, h5, h6, h7, h8]
      show ("Made all captions bolder!" : String) ≠ ""
      decide
    obtain h9 | h9 := Bool.eq_false_or_eq_true
      (jsIncludes (jsToLower cmd) "thinner" || jsIncludes (jsToLower cmd) "lighter font")
    · rw [h1, h2, h3, h4, h5, h6, h7, h8, h9]
      show ("Made all captions thinner!" : String) ≠ ""
      decide
    rcases _henv : env.llm with _ | outcome
    · rw [h1, h2, h3, h4, h5, h6, h7, h8, h9]
      show ("I didn't understand \"" ++ cmd ++ "\". Try: \"make it luxurious\", \"add energy\", \"make text red\", \"make text bigger\", \"speed it up\". (Demo mode - add GOOGLE_GENAI_API_KEY for full AI capabilities)" : String) ≠ ""
      exact ne_empty_of_append_left _ _ (ne_empty_of_append_left _ _ (by decide))
    · rw [h1, h2, h3, h4, h5, h6, h7, h8, h9]
      show (processWithLLM m env outcome).message ≠ ""
      exact processWithLLM_message_ne_empty m env outcome

/-- Witness for C8: the spec's "asdfqwerty123" in demo mode. -/
theorem director_fallback_no_change_witness :
    (processDirectorCommand "asdfqwerty123" tilingManifest {}).manifest = tilingManifest ∧
    (processDirectorCommand "asdfqwerty123" tilingManifest {}).message ≠ "" := by
  have h := director_fallback_no_change.1 "asdfqwerty123" tilingManifest {} rfl
    (by decide) (by decide)
  exact ⟨h.1, h.2.2.2⟩

/-- **C9.** `searchVideoSegment` is a pure query with respect to the video
content: for every manifest, query, mock-index id and TwelveLabs outcome, the
returned manifest keeps the input's clips (no clip is inserted), captions,
script and version (no version bump); the only field it may write is the
synthesized placeholder `videoIndex`. -/
theorem searchVideoSegment_is_query (m : VideoManifest) (query : String) (nowMs : ℕ)
    (tlSearch : Option VideoSegment) :
    ((searchVideoSegment m query nowMs tlSearch).manifest.clips = m.clips ∧
      (searchVideoSegment m query nowMs tlSearch).manifest.captions = m.captions ∧
      (searchVideoSegment m query nowMs tlSearch).manifest.script = m.script ∧
      (searchVideoSegment m query nowMs tlSearch).manifest.version = m.version ∧
      (searchVideoSegment m query nowMs tlSearch).manifest.theme = m.theme ∧
      (searchVideoSegment m query nowMs tlSearch).manifest.product = m.product) := by
  have hmock : ∀ (m' : VideoManifest), (mockSegmentSearch m' query).manifest = m' := by
    intro m'
    unfold mockSegmentSearch
    cases hfind : (((m'.videoIndex).map VideoIndex.segments).getD []).find?
        (fun s => jsIncludes (jsToLower s.label) (jsToLower query)) with
    | some seg => rfl
    | none => rfl
  unfold searchVideoSegment
  by_cases hvi : jsTruthy ((m.videoIndex).map VideoIndex.videoId) = true
  · simp only [hvi, if_true]
    cases tlSearch with
    | some seg => exact ⟨rfl, rfl, rfl, rfl, rfl, rfl⟩
    | none =>
      rw [hmock m]
      exact ⟨rfl, rfl, rfl, rfl, rfl, rfl⟩
  · simp only [Bool.not_eq_true] at hvi
    simp only [hvi, Bool.false_eq_true, if_false]
    by_cases hpv : jsTruthy m.product.videoUrl = true
    · simp only [hpv, if_true]
      cases tlSearch with
      | some seg => exact ⟨rfl, rfl, rfl, rfl, rfl, rfl⟩
      | none =>
        rw [hmock]
        simp
    · simp only [Bool.not_eq_true] at hpv
      simp [hpv]

/-- **C10.** When no keyword rule matches and the LLM tier succeeds with a
parsed response whose action list is empty or absent and which carries no
`manifestChanges`, `processDirectorCommand` still returns the manifest with
`version = input version + 1` (under the invariant `1 ≤ version`) and a
refreshed `updatedAt` — the version is bumped even though no content field
changed. -/
theorem llm_noop_still_bumps_version (cmd : String) (m : VideoManifest)
    (env : DirectorEnv) (output : ParsedDirectorOutput)
    (hv : 1 ≤ m.version)
    (hllm : env.llm = some (LLMOutcome.parsed output))
    (hacts : output.actions = none ∨ output.actions = some [])
    (hch : output.manifestChanges = none)
    (hnk : matchesAny (jsToLower cmd)
      (luxeKeywords ++ cyberKeywords ++ minimalKeywords ++ fasterKeywords ++
        slowerKeywords ++ sizeKeywords ++ weightKeywords) = false)
    (hnc : findColorMatch (jsToLower cmd) = none) :
    (processDirectorCommand cmd m env).manifest =
      { m with version := m.version + 1, updatedAt := some env.now } := by
  rw [matchesAny_append, matchesAny_append, matchesAny_append, matchesAny_append,
    matchesAny_append, matchesAny_append, Bool.or_eq_false_iff, Bool.or_eq_false_iff,
    Bool.or_eq_false_iff, Bool.or_eq_false_iff, Bool.or_eq_false_iff,
    Bool.or_eq_false_iff] at hnk
  have h6 : jsIncludes (jsToLower cmd) "bigger" = false ∧
      jsIncludes (jsToLower cmd) "larger" = false ∧
      jsIncludes (jsToLower cmd) "smaller" = false := by
    simpa [matchesAny, sizeKeywords, Bool.or_eq_false_iff] using hnk.1.2
  have h7 : jsIncludes (jsToLower cmd) "bolder" = false ∧
      jsIncludes (jsToLower cmd) "thicker" = false ∧
      jsIncludes (jsToLower cmd) "thinner" = false ∧
      jsIncludes (jsToLower cmd) "lighter font" = false := by
    simpa [matchesAny, weightKeywords, Bool.or_eq_false_iff] using hnk.2
  have hllmStep : processDirectorCommand cmd m env =
      processWithLLM m env (LLMOutcome.parsed output) := by
    unfold processDirectorCommand
    simp [hnk.1.1.1.1.1.1, hnk.1.1.1.1.1.2, hnk.1.1.1.1.2, hnk.1.1.1.2, hnk.1.1.2, hnc,
      h6.1, h6.2.1, h6.2.2, h7.1, h7.2.1, h7.2.2.1, h7.2.2.2, hllm]
  rw [hllmStep]
  unfold processWithLLM
  rcases hacts with ha | ha <;>
    simp [ha, hch, bumpVersion_eq m.version hv]

/-- Witness for C10: a parsed no-op response on the sample manifest still
bumps the version from 1 to 2. -/
theorem llm_noop_still_bumps_version_witness :
    (processDirectorCommand "zzz" tilingManifest
        { llm := some (LLMOutcome.parsed emptyParsedOutput), now := "2026-01-01" }).manifest =
      { tilingManifest with version := tilingManifest.version + 1
                            updatedAt := some "2026-01-01" } := by
  exact llm_noop_still_bumps_version "zzz" tilingManifest
    { llm := some (LLMOutcome.parsed emptyParsedOutput), now := "2026-01-01" }
    emptyParsedOutput (by decide) rfl (Or.inr rfl) rfl (by decide) (by decide)

/-- **C1 counterexample.** The claim fails on the legacy `DynamicText`'s
`getGlitchStyle` (`src/unnamed/part_008` lines 102-120), one of the claim's own
sources: its glitch offset is computed from two `Math.random()` draws, so at
the same frame (0) with the same deterministic inputs, two evaluations under
different ambient RNG states produce different visual output (`glitchOffset` 5
versus 0) — the pseudo-randomness is stateful, not a function of the frame. -/
theorem legacy_glitch_depends_on_rng_state :
    getGlitchStyleLegacy (fun _ => 0) 0 1 1 ≠ getGlitchStyleLegacy (fun _ => 0) 0 1 (1 / 2) := by
  intro h
  have hoff := congrArg LegacyGlitchStyleProps.glitchOffset h
  simp only [getGlitchStyleLegacy] at hoff
  norm_num at hoff

/-- **C1 amended.** In the live themed pipeline, rendering is deterministic:
`getGlitchStyle` (DynamicText) depends only on the theme and on Remotion's
fixed seeded hash evaluated at the frame-derived seeds `"glitch-" + frame` and
`"offset-" + frame` — any two hash oracles agreeing on those two seeds give
identical output at that frame — and `TransitionEffect` and the typewriter
reveal are pure functions of their arguments, so identical arguments always
give identical output. The legacy `DynamicText` variant of
`src/unnamed/part_008` remains nondeterministic (see the counterexample). -/
theorem glitch_rendering_deterministic
    (hashA hashB : String → ℚ) (sine : ℚ → ℚ) (frame : ℕ) (theme : Theme)
    (hg : hashA ("glitch-" ++ toString frame) = hashB ("glitch-" ++ toString frame))
    (ho : hashA ("offset-" ++ toString frame) = hashB ("offset-" ++ toString frame)) :
    getGlitchStyle hashA sine frame theme = getGlitchStyle hashB sine frame theme ∧
    (∀ (hash : String → ℚ) (type : TransitionType) (progress : ℚ),
      transitionEffect hash type progress = transitionEffect hash type progress) ∧
    (∀ (text : String) (f dur : ℕ),
      typewriterVisibleText text f dur = typewriterVisibleText text f dur) := by
  refine ⟨?_, fun _ _ _ => rfl, fun _ _ _ => rfl⟩
  unfold getGlitchStyle
  rw [hg, ho]

/-- Witness for C1 amended: two hash oracles agreeing on frame 7's seeds give
the same glitch style for the cyber theme. -/
theorem glitch_rendering_deterministic_witness :
    getGlitchStyle (fun _ => 0) (fun _ => 0) 7 cyberTheme =
      getGlitchStyle (fun s => if s = "unused" then 1 else 0) (fun _ => 0) 7 cyberTheme :=
  (glitch_rendering_deterministic (fun _ => 0) (fun s => if s = "unused" then 1 else 0)
    (fun _ => 0) 7 cyberTheme (by decide) (by decide)).1

end ViralClip
